import Mathlib

/-!
Shallow embedding of the face-liveness verification pipeline
(src/src/CameraFeed.jsx: the `useLivenessChecks` and `useLivenessDetection`
hooks).  Pixel values, landmark coordinates, probabilities and scores are
modelled as rationals; JavaScript's `Math.sqrt` is passed in as an explicit
function parameter `sqrt : ℚ → ℚ` so that every definition stays executable
while the algebraic structure of each formula is kept exactly as in the
source.  Time stamps (`Date.now()`) are integers in milliseconds.
-/

namespace FaceAuth

/-- A MediaPipe facial landmark: normalized 2-D point, as consumed by the
gesture detectors. -/
structure Landmark where
  x : ℚ
  y : ℚ
deriving Repr, DecidableEq

/-- A full landmark set: the detectors index it by fixed MediaPipe indices
(`landmarks[idx]`), so we model it as a total map from indices to points. -/
def Landmarks : Type := Nat → Landmark

/-- Squared euclidean distance between two landmarks; the source computes
`Math.sqrt(Math.pow(a.x-b.x,2) + Math.pow(a.y-b.y,2))`, so every distance in
the embedding is `sqrt (sqDist p q)`. -/
def sqDist (p q : Landmark) : ℚ :=
  (p.x - q.x) ^ 2 + (p.y - q.y) ^ 2

/-- `calculateEyeAspectRatio` from CameraFeed.jsx (lines 106–124): given the
four eye landmark indices `[top, bottom, left, right]`, the source computes
`vertical1` as the distance from `top` to `bottom`, `vertical2` as the
distance between `landmarks[eyePoints[0]]` and `landmarks[eyePoints[1]]`
(again `top` and `bottom`), `horizontal` as the distance from `left` to
`right`, and returns `(vertical1 + vertical2) / (2 * horizontal)`. -/
def calculateEyeAspectRatio (sqrt : ℚ → ℚ) (landmarks : Landmarks)
    (top bottom left right : Nat) : ℚ :=
  let vertical1 := sqrt (sqDist (landmarks top) (landmarks bottom))
  let vertical2 := sqrt (sqDist (landmarks top) (landmarks bottom))
  let horizontal := sqrt (sqDist (landmarks left) (landmarks right))
  (vertical1 + vertical2) / (2 * horizontal)

/-- Mean of a list of rationals (`reduce((a,b) => a+b, 0) / length`); on the
empty list the source would divide 0 by 0 giving NaN, here `0 / 0 = 0`. -/
def listMean (l : List ℚ) : ℚ := l.sum / (l.length : ℚ)

/-- The rolling-buffer update shared by the gesture detectors: `push` the new
value, then `shift` (drop the oldest, i.e. first, entry) once the length
exceeds the capacity 10. -/
def pushBounded (hist : List ℚ) (v : ℚ) : List ℚ :=
  let h := hist ++ [v]
  if h.length > 10 then h.drop 1 else h

/-- `detectBlink` (lines 126–152): per-eye EAR from the fixed MediaPipe
indices, average of both eyes, pushed into the capacity-10 blink history;
returns the blink verdict together with the updated history (the source
mutates `blinkHistoryRef`).  A missing landmark set returns `false` and
leaves the history untouched. -/
def detectBlink (sqrt : ℚ → ℚ) (landmarks : Option Landmarks)
    (blinkHistory : List ℚ) : Bool × List ℚ :=
  match landmarks with
  | none => (false, blinkHistory)
  | some lm =>
    let leftEAR := calculateEyeAspectRatio sqrt lm 159 145 33 133
    let rightEAR := calculateEyeAspectRatio sqrt lm 386 374 362 263
    let avgEAR := (leftEAR + rightEAR) / 2
    let newHist := pushBounded blinkHistory avgEAR
    (decide (listMean newHist < 25 / 100), newHist)

/-- `detectHeadTurn` (lines 154–174): ratio of nose-to-left-ear distance to
nose-to-right-ear distance; turned iff ratio > 1.3 or ratio < 1/1.3. -/
def detectHeadTurn (sqrt : ℚ → ℚ) (landmarks : Option Landmarks) : Bool :=
  match landmarks with
  | none => false
  | some lm =>
    let leftDistance := sqrt (sqDist (lm 1) (lm 234))
    let rightDistance := sqrt (sqDist (lm 1) (lm 454))
    let ratio := leftDistance / rightDistance
    decide (ratio > 13 / 10 ∨ ratio < 10 / 13)

/-- `detectSmile` (lines 176–198): mouth width over mouth height; smile iff
the ratio exceeds 2.5. -/
def detectSmile (sqrt : ℚ → ℚ) (landmarks : Option Landmarks) : Bool :=
  match landmarks with
  | none => false
  | some lm =>
    let mouthWidth := sqrt (sqDist (lm 61) (lm 291))
    let mouthHeight := sqrt (sqDist (lm 13) (lm 14))
    decide (mouthWidth / mouthHeight > 25 / 10)

/-- The five liveness stages, in the fixed order of the sequencer. -/
inductive Action where
  | face_detection
  | blink
  | head_turn
  | smile
  | complete
deriving Repr, DecidableEq

/-- Position of a stage in the fixed forward order. -/
def Action.idx : Action → Nat
  | .face_detection => 0
  | .blink => 1
  | .head_turn => 2
  | .smile => 3
  | .complete => 4

/-- The progress value the sequencer associates with each stage. -/
def Action.progressOf : Action → Nat
  | .face_detection => 0
  | .blink => 25
  | .head_turn => 50
  | .smile => 75
  | .complete => 100

/-- The mutable state of the `useLivenessChecks` hook: detection flags,
current stage, progress, the dwell timer, and the blink smoothing history. -/
structure LivenessState where
  blinkDetected : Bool
  headTurnDetected : Bool
  smileDetected : Bool
  currentAction : Action
  actionProgress : Nat
  actionStartTime : Option Int
  blinkHistory : List ℚ
deriving Repr, DecidableEq

/-- `checkLivenessAction` (lines 200–262), one invocation with the landmark
set of the current frame and the current time (`Date.now()`): no landmarks →
no change; unset dwell timer → set it and return; less than 500ms since the
timer was set → return; otherwise branch on the current stage, advancing one
stage when its gesture fires.  `detectBlink` pushes into the blink history
whether or not a blink is recognized, exactly as the source mutates
`blinkHistoryRef` on every call. -/
def checkLivenessAction (sqrt : ℚ → ℚ) (st : LivenessState)
    (landmarks : Option Landmarks) (currentTime : Int) : LivenessState :=
  match landmarks with
  | none => st
  | some lm =>
    match st.actionStartTime with
    | none => { st with actionStartTime := some currentTime }
    | some start =>
      if currentTime - start < 500 then st
      else
        match st.currentAction with
        | .face_detection =>
          { st with currentAction := .blink, actionProgress := 25,
                    actionStartTime := some currentTime }
        | .blink =>
          let r := detectBlink sqrt (some lm) st.blinkHistory
          if r.1 then
            { st with blinkDetected := true, currentAction := .head_turn,
                      actionProgress := 50, actionStartTime := some currentTime,
                      blinkHistory := r.2 }
          else { st with blinkHistory := r.2 }
        | .head_turn =>
          if detectHeadTurn sqrt (some lm) then
            { st with headTurnDetected := true, currentAction := .smile,
                      actionProgress := 75, actionStartTime := some currentTime }
          else st
        | .smile =>
          if detectSmile sqrt (some lm) then
            { st with smileDetected := true, currentAction := .complete,
                      actionProgress := 100, actionStartTime := none }
          else st
        | .complete => st

/-- `resetChecks` (lines 264–273): every flag false, stage `face_detection`,
progress 0, dwell timer cleared, histories emptied. -/
def resetChecks : LivenessState :=
  { blinkDetected := false, headTurnDetected := false, smileDetected := false,
    currentAction := .face_detection, actionProgress := 0,
    actionStartTime := none, blinkHistory := [] }

/-! ### Passive forensics (useLivenessDetection) -/

/-- A rank-3 tensor (height × width × channels) of rational pixel values, the
shape of the face crops handled by the passive analyses. -/
def Tensor3 : Type := List (List (List ℚ))

/-- A rank-3 tensor of complex entries (real, imaginary), the output shape of
`tf.spectral.fft2d`. -/
def CTensor3 : Type := List (List (List (ℚ × ℚ)))

/-- All entries of a rank-3 tensor, flattened. -/
def flatten3 (t : Tensor3) : List ℚ := (t.map (·.flatten)).flatten

/-- A single-channel image (height × width). -/
def Mat : Type := List (List ℚ)

/-- `tf.mean(faceTensor, -1, true)` up to the kept singleton axis: collapse
each pixel's channel list to its mean. -/
def channelMean (t : Tensor3) : Mat := t.map (·.map listMean)

/-- Zero-padded lookup into a single-channel image, giving the `'same'`
padding behaviour of `tf.conv2d`. -/
def matGet (m : Mat) (i j : Int) : ℚ :=
  if i < 0 ∨ j < 0 then 0
  else ((m.getD i.toNat []).getD j.toNat 0)

/-- The fixed 3×3 Laplacian convolution `[[0,1,0],[1,-4,1],[0,1,0]]` with
`'same'` padding and stride 1 (lines 385–389): each output pixel is the sum
of the four neighbours minus four times the centre. -/
def laplacianSame (m : Mat) : Mat :=
  (List.range m.length).map fun i =>
    (List.range (m.getD i []).length).map fun j =>
      matGet m (i - 1) j + matGet m (i + 1) j +
        matGet m i (j - 1) + matGet m i (j + 1) - 4 * matGet m i j

/-- `tf.moments(x).variance`: mean of the squared deviations from the mean
over all entries. -/
def listVariance (l : List ℚ) : ℚ :=
  listMean (l.map fun x => (x - listMean l) ^ 2)

/-- `analyzeTexture` (lines 377–402): absent crop → 0; otherwise grayscale
by channel mean, Laplacian response, variance over the response, score 1 iff
the variance exceeds 0.01. -/
def analyzeTexture (faceTensor : Option Tensor3) : ℚ :=
  match faceTensor with
  | none => 0
  | some t =>
    let gray := channelMean t
    let laplacian := laplacianSame gray
    let variance := listVariance laplacian.flatten
    if variance > 1 / 100 then 1 else 0

/-- `tf.mean(tf.squaredDifference(a, b))`: mean over all entries of the
entrywise squared difference of two same-shaped tensors. -/
def meanSqDiff (a b : Tensor3) : ℚ :=
  listMean ((List.zip (flatten3 a) (flatten3 b)).map fun p => (p.1 - p.2) ^ 2)

/-- `analyzeMotion` (lines 405–435): absent crop or fewer than 3 prior crops
→ 0; otherwise the loop `for i in [0, min(previousFaces.length, 3))`
accumulates the mean squared difference between the current crop and
`previousFaces[i]` — the FIRST (oldest) up-to-three entries of the history
array — averages them, and scores 1 iff the average exceeds 0.001. -/
def analyzeMotion (currentFace : Option Tensor3) (previousFaces : List Tensor3) : ℚ :=
  match currentFace with
  | none => 0
  | some cur =>
    if previousFaces.length < 3 then 0
    else
      let considered := previousFaces.take (min previousFaces.length 3)
      let totalMotion := (considered.map fun p => meanSqDiff cur p).sum
      let motionCount := considered.length
      let avgMotion := totalMotion / (motionCount : ℚ)
      if avgMotion > 1 / 1000 then 1 else 0

/-- Modelled from the spec: the motion analysis as the spec's words describe
it — "mean squared pixel difference between current crop and each of up to 3
MOST RECENT prior crops" — i.e. reading the up-to-three LAST entries of the
oldest-first history array rather than the first three. -/
def analyzeMotionSpecMostRecent (currentFace : Option Tensor3)
    (previousFaces : List Tensor3) : ℚ :=
  match currentFace with
  | none => 0
  | some cur =>
    if previousFaces.length < 3 then 0
    else
      let considered := previousFaces.drop (previousFaces.length - 3)
      let totalMotion := (considered.map fun p => meanSqDiff cur p).sum
      let avgMotion := totalMotion / (considered.length : ℚ)
      if avgMotion > 1 / 1000 then 1 else 0

/-- Sum of all entries of a complex-magnitude tensor restricted to columns
112–223: `tf.sum(tf.slice(magnitude, [0,112,0], [-1,112,-1]))`. -/
def highFreqSum (mag : Tensor3) : ℚ :=
  (mag.map fun row => (((row.drop 112).take 112).map List.sum).sum).sum

/-- Sum of all entries: `tf.sum(magnitude)`. -/
def totalSum (mag : Tensor3) : ℚ :=
  (mag.map fun row => (row.map List.sum).sum).sum

/-- `analyzeFrequencyDomain` (lines 438–462): the 2-D Fourier transform is
an external TensorFlow operation, passed in as a fallible function `fft2d`
(the body sits in a `try`/`catch` whose failure path yields 0).  On success:
entrywise magnitude `sqrt (re² + im²)`, energy of the outer half of the
spectrum (columns 112–223) over total energy, score 1 iff the ratio is
below 0.3. -/
def analyzeFrequencyDomain (sqrt : ℚ → ℚ)
    (fft2d : Tensor3 → Except Unit CTensor3) (faceTensor : Option Tensor3) : ℚ :=
  match faceTensor with
  | none => 0
  | some t =>
    match fft2d t with
    | .error _ => 0
    | .ok f =>
      let magnitude : Tensor3 :=
        f.map (·.map (·.map fun c => sqrt (c.1 ^ 2 + c.2 ^ 2)))
      let highFreqEnergy := highFreqSum magnitude
      let totalEnergy := totalSum magnitude
      let ratio := highFreqEnergy / totalEnergy
      if ratio < 3 / 10 then 1 else 0

/-- The result record of `detectSpoofing`. -/
structure SpoofResult where
  isSpoof : Bool
  confidence : ℚ
  reasons : List String
deriving Repr, DecidableEq

/-- The aggregation step of `detectSpoofing` (lines 472–484) as a function
of the three sub-scores: aggregate = mean of the three, spoof iff that mean
is below 0.5, one tag per sub-score below 0.5. -/
def fuseForensics (textureScore motionScore frequencyScore : ℚ) : SpoofResult :=
  let totalScore := (textureScore + motionScore + frequencyScore) / 3
  { isSpoof := decide (totalScore < 5 / 10)
    confidence := totalScore
    reasons :=
      (if textureScore < 5 / 10 then ["Low texture detail"] else []) ++
      (if motionScore < 5 / 10 then ["Insufficient motion"] else []) ++
      (if frequencyScore < 5 / 10 then ["Digital artifacts detected"] else []) }

/-- `detectSpoofing` (lines 465–485): absent crop fails closed; otherwise
the three passive analyses feed the aggregation step. -/
def detectSpoofing (sqrt : ℚ → ℚ) (fft2d : Tensor3 → Except Unit CTensor3)
    (faceTensor : Option Tensor3) (faceHistory : List Tensor3) : SpoofResult :=
  match faceTensor with
  | none => { isSpoof := true, confidence := 0, reasons := ["No face data"] }
  | some t =>
    let textureScore := analyzeTexture (some t)
    let motionScore := analyzeMotion (some t) faceHistory
    let frequencyScore := analyzeFrequencyDomain sqrt fft2d (some t)
    fuseForensics textureScore motionScore frequencyScore

/-! ### Classifier output validation and fusion (detectLiveness) -/

/-- A JavaScript number as the classifier output validation distinguishes
them: NaN, the two infinities, or an ordinary (rational) value.  `data[i]`
beyond the array's end is `undefined`, which global `isNaN` also reports as
NaN, so out-of-range reads are modelled by the default `nan`. -/
inductive JSNum where
  | nan
  | inf
  | ninf
  | num (q : ℚ)
deriving Repr, DecidableEq

/-- JavaScript's global `isNaN` on a number. -/
def jsIsNaN : JSNum → Bool
  | .nan => true
  | _ => false

/-- JavaScript's `isFinite` on a number. -/
def jsIsFinite : JSNum → Bool
  | .num _ => true
  | _ => false

/-- The inline output validation of `detectLiveness` (lines 538–545):
`liveProbability = predictionData[1]`, `spoofProbability =
predictionData[0]`; throw `'Invalid prediction results'` iff either is NaN,
otherwise hand back the pair (spoof, live). -/
def readPredictions (predictionData : List JSNum) : Except String (JSNum × JSNum) :=
  let liveProbability := predictionData.getD 1 .nan
  let spoofProbability := predictionData.getD 0 .nan
  if jsIsNaN liveProbability || jsIsNaN spoofProbability then
    .error "Invalid prediction results"
  else
    .ok (spoofProbability, liveProbability)

/-- The classifier's two-class output once validated: rational spoof and
live probabilities. -/
structure ClassifierResult where
  spoofProbability : ℚ
  liveProbability : ℚ
deriving Repr, DecidableEq

/-- The terminal verdict record returned by `detectLiveness`. -/
structure VerificationResult where
  isLive : Bool
  confidence : ℚ
  spoofReasons : List String
deriving Repr, DecidableEq

/-- The fusion step of `detectLiveness` (lines 513–569) as a function of the
passive result and the classifier output: the spoof short-circuit (lines
515–524) returns before inference, ignoring the classifier entirely;
otherwise `activeConfidence = max(liveProbability, spoofProbability)`,
`combinedConfidence = (activeConfidence + passive.confidence) / 2`,
`isLive = liveProbability > spoofProbability && !passive.isSpoof`, and the
returned `spoofReasons` are empty since `passive.isSpoof` is false. -/
def fuseLiveness (passive : SpoofResult) (c : ClassifierResult) : VerificationResult :=
  if passive.isSpoof then
    { isLive := false, confidence := 1 - passive.confidence,
      spoofReasons := passive.reasons }
  else
    let activeConfidence := max c.liveProbability c.spoofProbability
    let combinedConfidence := (activeConfidence + passive.confidence) / 2
    { isLive := decide (c.liveProbability > c.spoofProbability) && !passive.isSpoof,
      confidence := combinedConfidence,
      spoofReasons := if passive.isSpoof then passive.reasons else [] }

/-- The face-history ring buffer of `detectLiveness` (lines 506–510): push
the clone of the current crop, evict the oldest entry once the length
exceeds 5. -/
def pushFaceHistory (hist : List Tensor3) (cur : Tensor3) : List Tensor3 :=
  let h := hist ++ [cur]
  if h.length > 5 then h.drop 1 else h

/-! ### Helper lemmas -/

theorem analyzeTexture_zero_or_one (ft : Option Tensor3) :
    analyzeTexture ft = 0 ∨ analyzeTexture ft = 1 := by
  cases ft with
  | none => exact Or.inl rfl
  | some t =>
    simp only [analyzeTexture]
    split
    · exact Or.inr rfl
    · exact Or.inl rfl

theorem analyzeMotion_zero_or_one (ft : Option Tensor3) (hist : List Tensor3) :
    analyzeMotion ft hist = 0 ∨ analyzeMotion ft hist = 1 := by
  cases ft with
  | none => exact Or.inl rfl
  | some t =>
    simp only [analyzeMotion]
    split
    · exact Or.inl rfl
    · split
      · exact Or.inr rfl
      · exact Or.inl rfl

theorem analyzeFrequencyDomain_zero_or_one (sqrt : ℚ → ℚ)
    (fft2d : Tensor3 → Except Unit CTensor3) (ft : Option Tensor3) :
    analyzeFrequencyDomain sqrt fft2d ft = 0 ∨ analyzeFrequencyDomain sqrt fft2d ft = 1 := by
  cases ft with
  | none => exact Or.inl rfl
  | some t =>
    simp only [analyzeFrequencyDomain]
    cases fft2d t with
    | error e => exact Or.inl rfl
    | ok f =>
      simp only
      split
      · exact Or.inr rfl
      · exact Or.inl rfl

theorem detectSpoofing_some (sqrt : ℚ → ℚ) (fft2d : Tensor3 → Except Unit CTensor3)
    (t : Tensor3) (hist : List Tensor3) :
    detectSpoofing sqrt fft2d (some t) hist =
      fuseForensics (analyzeTexture (some t)) (analyzeMotion (some t) hist)
        (analyzeFrequencyDomain sqrt fft2d (some t)) := rfl

/-! ### Claims -/

/-- C5: when the face crop is absent, `detectSpoofing` fails closed, returning
`isSpoof = true`, `confidence = 0`, `reasons = ["No face data"]`, for every
square root, FFT implementation and crop history. -/
theorem detectSpoofing_no_face (sqrt : ℚ → ℚ) (fft2d : Tensor3 → Except Unit CTensor3)
    (faceHistory : List Tensor3) :
    detectSpoofing sqrt fft2d none faceHistory =
      { isSpoof := true, confidence := 0, reasons := ["No face data"] } := rfl

/-- C1: the fusion step of `detectLiveness`.  If the forensics result is
spoof, the verdict is `isLive = false` with `confidence = 1 - F.confidence`
and `spoofReasons = F.reasons`, independent of the classifier output (the
result is the same for every classifier result); otherwise the confidence is
`(max(live, spoof) + F.confidence) / 2` and
`isLive = (live > spoof) && !F.isSpoof`; and whenever the forensics result is
spoof the final `isLive` is false. -/
theorem fuseLiveness_fusion (F : SpoofResult) (C : ClassifierResult) :
    (F.isSpoof = true →
      fuseLiveness F C = { isLive := false, confidence := 1 - F.confidence,
                           spoofReasons := F.reasons } ∧
      ∀ C' : ClassifierResult, fuseLiveness F C = fuseLiveness F C') ∧
    (F.isSpoof = false →
      (fuseLiveness F C).confidence =
        (max C.liveProbability C.spoofProbability + F.confidence) / 2 ∧
      (fuseLiveness F C).isLive =
        (decide (C.liveProbability > C.spoofProbability) && !F.isSpoof)) ∧
    (F.isSpoof = true → (fuseLiveness F C).isLive = false) := by
  refine ⟨fun h => ⟨?_, fun C' => ?_⟩, fun h => ⟨?_, ?_⟩, fun h => ?_⟩ <;>
    simp [fuseLiveness, h]

/-- C2: for every face crop and crop history, `detectSpoofing` returns as
confidence the arithmetic mean of the three sub-scores, each of which lies in
[0, 1]; `isSpoof` holds iff that mean is below 0.5; `reasons` holds exactly
one tag per sub-score below 0.5, in the fixed order texture, motion,
frequency; and on sub-scores texture = 0, motion = 1, frequency = 1 the
aggregate is 2/3 (≈ 0.667), `isSpoof` is false and the only reason is
"Low texture detail". -/
theorem detectSpoofing_mean_spec (sqrt : ℚ → ℚ) (fft2d : Tensor3 → Except Unit CTensor3)
    (t : Tensor3) (hist : List Tensor3) :
    let T := analyzeTexture (some t)
    let M := analyzeMotion (some t) hist
    let F := analyzeFrequencyDomain sqrt fft2d (some t)
    let r := detectSpoofing sqrt fft2d (some t) hist
    r.confidence = (T + M + F) / 3 ∧
    (0 ≤ T ∧ T ≤ 1) ∧ (0 ≤ M ∧ M ≤ 1) ∧ (0 ≤ F ∧ F ≤ 1) ∧
    (r.isSpoof = true ↔ (T + M + F) / 3 < 5 / 10) ∧
    r.reasons = (if T < 5 / 10 then ["Low texture detail"] else []) ++
        (if M < 5 / 10 then ["Insufficient motion"] else []) ++
        (if F < 5 / 10 then ["Digital artifacts detected"] else []) ∧
    fuseForensics 0 1 1 =
      { isSpoof := false, confidence := 2 / 3, reasons := ["Low texture detail"] } := by
  intro T M F r
  have hT : T = 0 ∨ T = 1 := analyzeTexture_zero_or_one (some t)
  have hM : M = 0 ∨ M = 1 := analyzeMotion_zero_or_one (some t) hist
  have hF : F = 0 ∨ F = 1 := analyzeFrequencyDomain_zero_or_one sqrt fft2d (some t)
  have hr : r = fuseForensics T M F := rfl
  refine ⟨by rw [hr]; rfl, ?_, ?_, ?_, ?_, by rw [hr]; rfl, ?_⟩
  · rcases hT with h | h <;> rw [h] <;> norm_num
  · rcases hM with h | h <;> rw [h] <;> norm_num
  · rcases hF with h | h <;> rw [h] <;> norm_num
  · rw [hr]
    simp only [fuseForensics, decide_eq_true_eq]
  · simp only [fuseForensics]
    norm_num

/-- C9 counterexample: an infinite (hence non-finite) spoof probability
passes the validation of `detectLiveness` untouched instead of failing the
attempt: the check rejects NaN only. -/
theorem readPredictions_accepts_infinite :
    readPredictions [JSNum.inf, JSNum.num (85 / 100)] =
      .ok (JSNum.inf, JSNum.num (85 / 100)) ∧
    jsIsFinite JSNum.inf = false := ⟨rfl, rfl⟩

/-- C9 (amended): the classifier output is read with index 0 as spoof
probability and index 1 as live probability, and both are validated to be
non-NaN before use; the attempt fails with the "Invalid prediction results"
error exactly when one of the two is NaN, and otherwise the pair
(data[0], data[1]) is used as (spoof, live). -/
theorem readPredictions_nan_validation (d : List JSNum) :
    (readPredictions d = .error "Invalid prediction results" ↔
      (jsIsNaN (d.getD 1 .nan) || jsIsNaN (d.getD 0 .nan)) = true) ∧
    ((jsIsNaN (d.getD 1 .nan) || jsIsNaN (d.getD 0 .nan)) = false →
      readPredictions d = .ok (d.getD 0 .nan, d.getD 1 .nan)) := by
  simp only [readPredictions]
  constructor
  · split
    · simp_all
    · simp_all
  · intro h
    rw [h]
    rfl

/-- C7 (amended): the motion analysis returns 0 when the current crop is
absent or fewer than 3 prior crops exist; with at least 3 prior crops it
averages the mean squared pixel differences between the current crop and the
FIRST three (oldest) entries of the prior-crop history and scores 1 exactly
when that average exceeds 0.001. -/
theorem analyzeMotion_oldest_three (cur : Tensor3) (prev : List Tensor3) :
    analyzeMotion none prev = 0 ∧
    (prev.length < 3 → analyzeMotion (some cur) prev = 0) ∧
    (3 ≤ prev.length →
      analyzeMotion (some cur) prev =
        if (meanSqDiff cur (prev.getD 0 []) + meanSqDiff cur (prev.getD 1 []) +
            meanSqDiff cur (prev.getD 2 [])) / 3 > 1 / 1000 then 1 else 0) := by
  refine ⟨rfl, fun h => by simp only [analyzeMotion]; rw [if_pos h], fun h => ?_⟩
  match prev, h with
  | a :: b :: c :: rest, _ =>
    simp only [analyzeMotion, List.length_cons]
    rw [if_neg (by omega)]
    have hmin : min (rest.length + 1 + 1 + 1) 3 = 3 := by omega
    simp only [hmin]
    simp only [List.take_succ_cons, List.take_zero, List.map_cons, List.map_nil,
      List.sum_cons, List.sum_nil, List.length_cons, List.length_nil, List.getD,
      List.get?_cons_zero, List.get?_cons_succ, Option.getD_some]
    norm_num [add_assoc]

/-- C7 counterexample: with the oldest-first prior-crop history
`[A, A, A, B]` (A the all-zero 1×1×1 crop, B the all-one one) and current
crop A, the source's loop compares against the first three entries (all A,
zero difference) and returns 0, while comparing against the three most
recent entries `[A, A, B]`, as the claim states, would give average 1/3 >
0.001 and return 1. -/
theorem analyzeMotion_not_most_recent :
    analyzeMotion (some [[[0]]]) [[[[0]]], [[[0]]], [[[0]]], [[[1]]]] = 0 ∧
    analyzeMotionSpecMostRecent (some [[[0]]]) [[[[0]]], [[[0]]], [[[0]]], [[[1]]]] = 1 := by
  constructor <;>
    norm_num [analyzeMotion, analyzeMotionSpecMostRecent, meanSqDiff, flatten3,
      listMean, List.take, List.drop, List.zip]

/-- C8: the frequency analysis applies the external 2-D Fourier transform,
takes the entrywise magnitude, forms the ratio of the energy in the outer
(high-frequency) half of the spectrum (columns 112–223) to the total energy
and returns 1 exactly when that ratio is below 0.3; when the transform
throws, the sub-score degrades to 0 instead of aborting. -/
theorem analyzeFrequencyDomain_ratio_spec (sqrt : ℚ → ℚ)
    (fft2d : Tensor3 → Except Unit CTensor3) (t : Tensor3) :
    (∀ e, fft2d t = .error e → analyzeFrequencyDomain sqrt fft2d (some t) = 0) ∧
    (∀ f, fft2d t = .ok f →
      analyzeFrequencyDomain sqrt fft2d (some t) =
        if highFreqSum (f.map (·.map (·.map fun c => sqrt (c.1 ^ 2 + c.2 ^ 2)))) /
            totalSum (f.map (·.map (·.map fun c => sqrt (c.1 ^ 2 + c.2 ^ 2)))) <
            3 / 10
        then 1 else 0) := by
  constructor
  · intro e he
    simp only [analyzeFrequencyDomain, he]
  · intro f hf
    simp only [analyzeFrequencyDomain, hf]

theorem fuseForensics_binary (T M F : ℚ) (hT : T = 0 ∨ T = 1)
    (hM : M = 0 ∨ M = 1) (hF : F = 0 ∨ F = 1) :
    ((fuseForensics T M F).confidence = 0 ∨ (fuseForensics T M F).confidence = 1 / 3 ∨
      (fuseForensics T M F).confidence = 2 / 3 ∨ (fuseForensics T M F).confidence = 1) ∧
    ((fuseForensics T M F).isSpoof = true ↔
      ((if T = 1 then 1 else 0) + (if M = 1 then 1 else 0) +
        (if F = 1 then 1 else 0) : ℕ) ≤ 1) ∧
    ((fuseForensics T M F).isSpoof = true →
      1 - (fuseForensics T M F).confidence = 2 / 3 ∨
      1 - (fuseForensics T M F).confidence = 1) := by
  rcases hT with rfl | rfl <;> rcases hM with rfl | rfl <;> rcases hF with rfl | rfl <;>
    refine ⟨?_, ?_, fun hs => ?_⟩ <;>
    norm_num [fuseForensics, decide_eq_true_eq] at *

/-- C10: each passive sub-score is exactly 0 or exactly 1; hence the
aggregate confidence returned by `detectSpoofing` is one of 0, 1/3, 2/3, 1;
for a present crop, `isSpoof` holds exactly when at most one of the three
analyses scores 1; and on the spoof short-circuit path of the fusion the
reported confidence `1 - aggregate` is 2/3 or 1. -/
theorem forensics_scores_binary (sqrt : ℚ → ℚ) (fft2d : Tensor3 → Except Unit CTensor3)
    (ft : Option Tensor3) (hist : List Tensor3) (C : ClassifierResult) :
    (analyzeTexture ft = 0 ∨ analyzeTexture ft = 1) ∧
    (analyzeMotion ft hist = 0 ∨ analyzeMotion ft hist = 1) ∧
    (analyzeFrequencyDomain sqrt fft2d ft = 0 ∨
      analyzeFrequencyDomain sqrt fft2d ft = 1) ∧
    ((detectSpoofing sqrt fft2d ft hist).confidence = 0 ∨
      (detectSpoofing sqrt fft2d ft hist).confidence = 1 / 3 ∨
      (detectSpoofing sqrt fft2d ft hist).confidence = 2 / 3 ∨
      (detectSpoofing sqrt fft2d ft hist).confidence = 1) ∧
    (∀ t, ft = some t →
      ((detectSpoofing sqrt fft2d ft hist).isSpoof = true ↔
        ((if analyzeTexture (some t) = 1 then 1 else 0) +
          (if analyzeMotion (some t) hist = 1 then 1 else 0) +
          (if analyzeFrequencyDomain sqrt fft2d (some t) = 1 then 1 else 0) : ℕ) ≤ 1)) ∧
    ((detectSpoofing sqrt fft2d ft hist).isSpoof = true →
      (fuseLiveness (detectSpoofing sqrt fft2d ft hist) C).confidence = 2 / 3 ∨
      (fuseLiveness (detectSpoofing sqrt fft2d ft hist) C).confidence = 1) := by
  refine ⟨analyzeTexture_zero_or_one ft, analyzeMotion_zero_or_one ft hist,
    analyzeFrequencyDomain_zero_or_one sqrt fft2d ft, ?_, ?_, ?_⟩
  · cases ft with
    | none => exact Or.inl rfl
    | some t =>
      rw [detectSpoofing_some]
      exact (fuseForensics_binary _ _ _ (analyzeTexture_zero_or_one _)
        (analyzeMotion_zero_or_one _ _)
        (analyzeFrequencyDomain_zero_or_one _ _ _)).1
  · rintro t rfl
    rw [detectSpoofing_some]
    exact (fuseForensics_binary _ _ _ (analyzeTexture_zero_or_one _)
      (analyzeMotion_zero_or_one _ _)
      (analyzeFrequencyDomain_zero_or_one _ _ _)).2.1
  · intro hs
    cases ft with
    | none =>
      simp only [detectSpoofing, fuseLiveness]
      norm_num
    | some t =>
      rw [detectSpoofing_some] at hs ⊢
      have h2 := (fuseForensics_binary _ _ _ (analyzeTexture_zero_or_one (some t))
        (analyzeMotion_zero_or_one (some t) hist)
        (analyzeFrequencyDomain_zero_or_one sqrt fft2d (some t))).2.2 hs
      simpa [fuseLiveness, hs] using h2

/-- C4: an invocation of `checkLivenessAction` at a time less than 500ms
after the dwell timer was last set leaves the whole state — stage, progress,
detection flags, histories — unchanged, for every landmark input. -/
theorem checkLivenessAction_dwell (sqrt : ℚ → ℚ) (st : LivenessState)
    (lm : Option Landmarks) (t s : Int) (hs : st.actionStartTime = some s)
    (ht : t < s + 500) :
    checkLivenessAction sqrt st lm t = st := by
  cases lm with
  | none => rfl
  | some L =>
    simp only [checkLivenessAction, hs]
    rw [if_pos (by omega)]

/-- Witness for C4: a state whose timer was set at 0, invoked at 100ms with
a landmark set present, is returned unchanged. -/
theorem checkLivenessAction_dwell_witness :
    checkLivenessAction (fun q => q) { resetChecks with actionStartTime := some 0 }
        (some fun _ => ⟨0, 0⟩) 100 =
      { resetChecks with actionStartTime := some 0 } :=
  checkLivenessAction_dwell (fun q => q) _ _ 100 0 rfl (by decide)

/-- C3: one invocation of `checkLivenessAction` never moves the stage
backward and advances it by at most one position in the fixed order
face_detection → blink → head_turn → smile → complete; assuming the
progress/stage coherence invariant (which the initial state satisfies and
which is preserved), the progress after the step is still coherent, takes
one of the values 0, 25, 50, 75, 100, and never decreases; and `resetChecks`
is the only way back, returning stage face_detection with progress 0. -/
theorem checkLivenessAction_forward (sqrt : ℚ → ℚ) (st : LivenessState)
    (lm : Option Landmarks) (t : Int)
    (h : st.actionProgress = st.currentAction.progressOf) :
    let st' := checkLivenessAction sqrt st lm t
    st.currentAction.idx ≤ st'.currentAction.idx ∧
    st'.currentAction.idx ≤ st.currentAction.idx + 1 ∧
    st'.actionProgress = st'.currentAction.progressOf ∧
    (st'.actionProgress = 0 ∨ st'.actionProgress = 25 ∨ st'.actionProgress = 50 ∨
      st'.actionProgress = 75 ∨ st'.actionProgress = 100) ∧
    st.actionProgress ≤ st'.actionProgress ∧
    resetChecks.currentAction = Action.face_detection ∧
    resetChecks.actionProgress = 0 := by
  obtain ⟨bd, hd, sd, ca, ap, ast, bh⟩ := st
  dsimp only at h ⊢
  subst h
  cases lm with
  | none =>
    cases ca <;>
      simp [checkLivenessAction, Action.idx, Action.progressOf, resetChecks]
  | some L =>
    cases ast with
    | none =>
      cases ca <;>
        simp [checkLivenessAction, Action.idx, Action.progressOf, resetChecks]
    | some start =>
      by_cases hg : t - start < 500
      · cases ca <;>
          simp [checkLivenessAction, hg, Action.idx, Action.progressOf, resetChecks]
      · cases ca <;>
          simp only [checkLivenessAction, if_neg hg] <;>
          first
          | (split <;>
              simp [Action.idx, Action.progressOf, resetChecks])
          | simp [Action.idx, Action.progressOf, resetChecks]

/-- Witness for C3: the coherence hypothesis holds for the initial state
`resetChecks` (progress 0 at stage face_detection), and the step at time 0
with no landmarks satisfies every conjunct. -/
theorem checkLivenessAction_forward_witness :
    let st' := checkLivenessAction (fun q => q) resetChecks none 0
    resetChecks.currentAction.idx ≤ st'.currentAction.idx ∧
    st'.currentAction.idx ≤ resetChecks.currentAction.idx + 1 ∧
    st'.actionProgress = st'.currentAction.progressOf ∧
    (st'.actionProgress = 0 ∨ st'.actionProgress = 25 ∨ st'.actionProgress = 50 ∨
      st'.actionProgress = 75 ∨ st'.actionProgress = 100) ∧
    resetChecks.actionProgress ≤ st'.actionProgress ∧
    resetChecks.currentAction = Action.face_detection ∧
    resetChecks.actionProgress = 0 :=
  checkLivenessAction_forward (fun q => q) resetChecks none 0 rfl

/-- C6: for every landmark set, the blink detector computes each eye's EAR
as (vertical + vertical) / (2 × horizontal) from that eye's four landmark
indices, averages the two eyes, appends the average to the rolling history
(evicting the oldest — first — entry when the capacity 10 is reached, so
the retained length never exceeds 10), and reports a blink exactly when the
mean of the retained entries is below 0.25; on the retained history
[0.30, 0.28, 0.10, 0.08, 0.29] the mean is 0.21 < 0.25 and the blink fires. -/
theorem detectBlink_spec (sqrt : ℚ → ℚ) (lm : Landmarks) (hist : List ℚ)
    (hlen : hist.length ≤ 10) :
    let avg := (calculateEyeAspectRatio sqrt lm 159 145 33 133 +
        calculateEyeAspectRatio sqrt lm 386 374 362 263) / 2
    let r := detectBlink sqrt (some lm) hist
    (∀ top bottom left right : Nat,
      calculateEyeAspectRatio sqrt lm top bottom left right =
        (sqrt (sqDist (lm top) (lm bottom)) + sqrt (sqDist (lm top) (lm bottom))) /
          (2 * sqrt (sqDist (lm left) (lm right)))) ∧
    r.2 = (if hist.length = 10 then hist.drop 1 else hist) ++ [avg] ∧
    r.2.length ≤ 10 ∧
    (r.1 = true ↔ listMean r.2 < 25 / 100) ∧
    listMean [30 / 100, 28 / 100, 10 / 100, 8 / 100, 29 / 100] = 21 / 100 ∧
    ((21 : ℚ) / 100 < 25 / 100) ∧
    (detectBlink (fun q => q)
      (some fun i =>
        if i = 159 ∨ i = 386 then ⟨1 / 2, 1 / 5⟩
        else if i = 145 ∨ i = 374 ∨ i = 33 ∨ i = 362 then ⟨0, 0⟩
        else ⟨1, 0⟩)
      [30 / 100, 28 / 100, 10 / 100, 8 / 100]).1 = true := by
  refine ⟨fun top bottom left right => rfl, ?_, ?_, ?_, by norm_num [listMean],
    by norm_num, ?_⟩
  · show pushBounded hist _ = _
    simp only [pushBounded, List.length_append, List.length_cons, List.length_nil]
    rcases Nat.lt_or_ge hist.length 10 with hl | hl
    · rw [if_neg (by omega), if_neg (by omega)]
    · have h10 : hist.length = 10 := le_antisymm hlen hl
      rw [if_pos (by omega), if_pos h10]
      cases hist with
      | nil => simp at h10
      | cons a l => simp
  · show (pushBounded hist _).length ≤ 10
    simp only [pushBounded, List.length_append, List.length_cons, List.length_nil]
    split <;> simp <;> omega
  · exact ⟨fun hb => of_decide_eq_true hb, fun hb => decide_eq_true hb⟩
  · norm_num [detectBlink, calculateEyeAspectRatio, sqDist, pushBounded, listMean]

/-- Witness for C6: the capacity hypothesis at the four-entry history of the
spec's Scenario A, with the identity as square root and a landmark set whose
eye landmarks give both eyes an EAR of 0.29. -/
theorem detectBlink_spec_witness :
    let lm : Landmarks := fun i =>
      if i = 159 ∨ i = 386 then ⟨1 / 2, 1 / 5⟩
      else if i = 145 ∨ i = 374 ∨ i = 33 ∨ i = 362 then ⟨0, 0⟩
      else ⟨1, 0⟩
    let hist : List ℚ := [30 / 100, 28 / 100, 10 / 100, 8 / 100]
    let avg := (calculateEyeAspectRatio (fun q => q) lm 159 145 33 133 +
        calculateEyeAspectRatio (fun q => q) lm 386 374 362 263) / 2
    let r := detectBlink (fun q => q) (some lm) hist
    (∀ top bottom left right : Nat,
      calculateEyeAspectRatio (fun q => q) lm top bottom left right =
        ((fun q => q) (sqDist (lm top) (lm bottom)) +
          (fun q => q) (sqDist (lm top) (lm bottom))) /
          (2 * (fun q => q) (sqDist (lm left) (lm right)))) ∧
    r.2 = (if hist.length = 10 then hist.drop 1 else hist) ++ [avg] ∧
    r.2.length ≤ 10 ∧
    (r.1 = true ↔ listMean r.2 < 25 / 100) ∧
    listMean [30 / 100, 28 / 100, 10 / 100, 8 / 100, 29 / 100] = 21 / 100 ∧
    ((21 : ℚ) / 100 < 25 / 100) ∧
    (detectBlink (fun q => q)
      (some fun i =>
        if i = 159 ∨ i = 386 then ⟨1 / 2, 1 / 5⟩
        else if i = 145 ∨ i = 374 ∨ i = 33 ∨ i = 362 then ⟨0, 0⟩
        else ⟨1, 0⟩)
      [30 / 100, 28 / 100, 10 / 100, 8 / 100]).1 = true :=
  detectBlink_spec (fun q => q)
    (fun i =>
      if i = 159 ∨ i = 386 then ⟨1 / 2, 1 / 5⟩
      else if i = 145 ∨ i = 374 ∨ i = 33 ∨ i = 362 then ⟨0, 0⟩
      else ⟨1, 0⟩)
    [30 / 100, 28 / 100, 10 / 100, 8 / 100] (by decide)

end FaceAuth
